import Mathlib

/-!
Verification development for the Gemmoji backend (FastAPI + Firestore + Gemini).

Shallow embedding of the repository's code:
* `app/models.py`        — `EmojiBase` pydantic model, embedded as `EmojiBase` plus a
                           fallible constructor `mkEmojiBase` over raw field maps.
* `app/services/gemini_service.py`   — `categorize_emoji_prompt`.
* `app/services/firebase_service.py` — listing, increment, categorize, visibility update.
* `app/routes/emoji_routes.py`       — error-to-HTTP-status translation, keyword binding.
* `scripts/add_download_count.py`    — downloadCount backfill.
* `scripts/migrate_emojis.py`        — bulk emoji migration.

Firestore is modelled as an association list from `(user_id, emoji_id)` paths to
documents; `DocumentReference.update` on a missing document fails with a
NotFound error (the behaviour of `google.api_core.exceptions.NotFound`, which is
not a Python `ValueError`).  AI-model behaviour is a parameter
`oracle : String → Option String` (`some t` = the call returns text `t`,
`none` = the call raises).  Random id generation is a parameter
`pick : Nat → Nat` supplying the index choices of `secrets.choice`.
-/

namespace Gemmoji

/-- Python exception classes that the routes distinguish. -/
inductive PyErr where
  | valueError : String → PyErr
  | notFound : PyErr
  | typeError : String → PyErr
  | attributeError : String → PyErr
deriving DecidableEq, Repr

/-- A stored Firestore emoji document (`emojis/{userID}/usersEmojis/{emojiID}`).
`downloadCount` and `category` are `Option` because existing documents may lack
those fields; `prompt` uses `""` for the Python-falsy missing/empty prompt. -/
structure EmojiDoc where
  emojiID : String
  imageURL : Option String
  imageURLWithBackground : Option String
  predictionID : String
  prompt : String
  userID : String
  visibility : String
  createdAt : Int
  downloadCount : Option Int
  category : Option String
deriving DecidableEq, Repr

/-- The document store: association list keyed by the `(user_id, emoji_id)` path. -/
abbrev Store := List ((String × String) × EmojiDoc)

/-- `doc_ref.get()` — returns the document at the path, if it exists. -/
def docGet (store : Store) (u e : String) : Option EmojiDoc :=
  (store.find? (fun kv => decide (kv.1 = (u, e)))).map (·.2)

/-- `doc_ref.update(...)` — Firestore updates the existing document, and raises
NotFound (`google.api_core.exceptions.NotFound`, not a `ValueError`) when the
document does not exist. -/
def docUpdate (store : Store) (u e : String) (f : EmojiDoc → EmojiDoc) :
    Except PyErr Store :=
  if (docGet store u e).isSome then
    .ok (store.map (fun kv => if kv.1 = (u, e) then (kv.1, f kv.2) else kv))
  else
    .error .notFound

/-! ## `app/services/gemini_service.py` -/

/-- Python `str.strip()` — remove leading and trailing whitespace. -/
def pyStrip (s : String) : String :=
  String.mk (((s.data.dropWhile Char.isWhitespace).reverse.dropWhile Char.isWhitespace).reverse)

/-- The five fixed labels of `GeminiService.categorize_emoji_prompt`. -/
def geminiCategories : List String := ["Animals", "Celebrities", "Memes", "Food", "Emotions"]

/-- `GeminiService.categorize_emoji_prompt(prompt)`.  `oracle prompt` is the
behaviour of `self.model.generate_content(...).text` on this prompt:
`some t` = the call produced text `t`; `none` = anything in the `try` block
raised.  The trimmed text is returned if it is exactly one of the five labels,
otherwise (and on any exception) `"Emotions"`. -/
def categorize_emoji_prompt (oracle : String → Option String) (prompt : String) : String :=
  match oracle prompt with
  | none => "Emotions"
  | some t =>
    let category := pyStrip t
    if category ∈ geminiCategories then category else "Emotions"

/-! ## `app/services/firebase_service.py` — mutations -/

/-- Result dict of `increment_emoji_download_count`. -/
structure IncrementResult where
  success : Bool
  emojiID : String
  downloadCount : Int
deriving DecidableEq, Repr

/-- `FirebaseService.increment_emoji_download_count(user_id, emoji_id)`.
`doc_ref.update({"downloadCount": firestore.Increment(1)})` runs first, so a
missing document surfaces as Firestore's NotFound, and the subsequent
`if not updated_doc.exists: raise ValueError(...)` check is unreachable. -/
def increment_emoji_download_count (store : Store) (u e : String) :
    Except PyErr (Store × IncrementResult) :=
  match docUpdate store u e
      (fun d => { d with downloadCount := some (d.downloadCount.getD 0 + 1) }) with
  | .error err => .error err
  | .ok store2 =>
    match docGet store2 u e with
    | none => .error (.valueError ("Emoji not found: " ++ e))
    | some d =>
      .ok (store2, { success := true, emojiID := e, downloadCount := d.downloadCount.getD 0 })

/-- Result dict of `categorize_emoji`. -/
structure CategorizeResult where
  success : Bool
  emojiID : String
  prompt : String
  category : String
deriving DecidableEq, Repr

/-- `FirebaseService.categorize_emoji(user_id, emoji_id)`: fetch, fail with
`ValueError` if the document is absent or its prompt is falsy, categorize via
Gemini, write the category back. -/
def categorize_emoji (oracle : String → Option String) (store : Store) (u e : String) :
    Except PyErr (Store × CategorizeResult) :=
  match docGet store u e with
  | none => .error (.valueError ("Emoji not found: " ++ e))
  | some d =>
    if d.prompt = "" then
      .error (.valueError ("No prompt found for emoji: " ++ e))
    else
      let category := categorize_emoji_prompt oracle d.prompt
      match docUpdate store u e (fun d0 => { d0 with category := some category }) with
      | .error err => .error err
      | .ok store2 =>
        .ok (store2, { success := true, emojiID := e, prompt := d.prompt, category := category })

/-- Result dict of `update_emoji_visibility`. -/
structure VisibilityResult where
  success : Bool
  emojiID : String
  visibility : String
deriving DecidableEq, Repr

/-- A storage round-trip issued by a service call (for spy/mock-store reasoning). -/
inductive StorageOp where
  | get : String → String → StorageOp
  | update : String → String → StorageOp
deriving DecidableEq, Repr

/-- `FirebaseService.update_emoji_visibility(user_id, emoji_id, visibility)`,
instrumented with the list of storage operations it performs.  The
`visibility not in ["Public", "Private"]` check runs before any storage access. -/
def update_emoji_visibility (store : Store) (u e vis : String) :
    (Except PyErr (Store × VisibilityResult)) × List StorageOp :=
  if vis ∈ (["Public", "Private"] : List String) then
    match docGet store u e with
    | none => (.error (.valueError ("Emoji not found: " ++ e)), [.get u e])
    | some _ =>
      match docUpdate store u e (fun d => { d with visibility := vis }) with
      | .ok store2 =>
        (.ok (store2, { success := true, emojiID := e, visibility := vis }),
         [.get u e, .update u e])
      | .error err => (.error err, [.get u e, .update u e])
  else
    (.error (.valueError "Visibility must be 'Public' or 'Private'"), [])

/-! ## `app/routes/emoji_routes.py` — error translation -/

/-- HTTP status produced by the mutation routes' handler bodies:
`except ValueError → 404`, `except Exception → 500`, otherwise 200. -/
def exceptStatus {α : Type} : Except PyErr α → Nat
  | .ok _ => 200
  | .error (.valueError _) => 404
  | .error _ => 500

/-- POST `/{user_id}/{emoji_id}/download` status. -/
def increment_download_count_route (store : Store) (u e : String) : Nat :=
  exceptStatus (increment_emoji_download_count store u e)

/-- POST `/{user_id}/{emoji_id}/categorize` status. -/
def categorize_emoji_route (oracle : String → Option String) (store : Store)
    (u e : String) : Nat :=
  exceptStatus (categorize_emoji oracle store u e)

/-- PUT `/visibility` status. -/
def update_emoji_visibility_route (store : Store) (u e vis : String) : Nat :=
  exceptStatus (update_emoji_visibility store u e vis).1

/-! ## `app/models.py` — `EmojiBase` (the eight response fields) -/

/-- The pydantic `EmojiBase` response model: exactly these eight fields. -/
structure EmojiBase where
  emojiID : String
  imageURL : Option String
  imageURLWithBackground : Option String
  predictionID : String
  prompt : String
  userID : String
  visibility : String
  createdAt : Int
deriving DecidableEq, Repr

/-- `EmojiBase(**doc_data)` applied to a stored document whose fields typecheck:
pydantic keeps the eight declared fields and ignores the extra keys
(`downloadCount`, `category`) present in storage. -/
def EmojiBase.ofDoc (d : EmojiDoc) : EmojiBase :=
  { emojiID := d.emojiID
    imageURL := d.imageURL
    imageURLWithBackground := d.imageURLWithBackground
    predictionID := d.predictionID
    prompt := d.prompt
    userID := d.userID
    visibility := d.visibility
    createdAt := d.createdAt }

/-! ## `app/services/firebase_service.py` — `list_user_emojis` -/

/-- Descending `createdAt` ordering relation (`order_by("createdAt", DESCENDING)`). -/
def docGe (a b : EmojiDoc) : Prop := b.createdAt ≤ a.createdAt

/-- Strict version of `docGe`: strictly descending `createdAt`. -/
def docGt (a b : EmojiDoc) : Prop := b.createdAt < a.createdAt

instance : DecidableRel docGe := fun a b => inferInstanceAs (Decidable (b.createdAt ≤ a.createdAt))

instance : IsTotal EmojiDoc docGe := ⟨fun a b => le_total b.createdAt a.createdAt⟩

instance : IsTrans EmojiDoc docGe := ⟨fun _ _ _ hab hbc => le_trans hbc hab⟩

/-- Python truthiness of an optional string parameter: `if visibility:` /
`if query:` / `if user_id:` skip the clause for `None` and for `""`. -/
def truthyStr : Option String → Option String
  | none => none
  | some s => if s = "" then none else some s

/-- The composed `where` filters of `list_user_emojis`: user scope (sub-collection
choice), `visibility` equality, and the prompt prefix range
`query ≤ prompt ≤ query + ""`. -/
def matchesFilters (qy vis uid : Option String) (d : EmojiDoc) : Bool :=
  (match truthyStr uid with
   | none => true
   | some u => decide (d.userID = u)) &&
  (match truthyStr vis with
   | none => true
   | some v => decide (d.visibility = v)) &&
  (match truthyStr qy with
   | none => true
   | some q => decide (q ≤ d.prompt) && decide (d.prompt ≤ q ++ ""))

/-- `start_after({"createdAt": cursor})` under the descending `createdAt` order:
keeps exactly the documents strictly after the cursor value.  The clause is
applied only when the cursor is Python-truthy (`if cursor:`), so `None` and `0`
leave the result unchanged. -/
def applyCursor (cursor : Option Int) (l : List EmojiDoc) : List EmojiDoc :=
  match cursor with
  | none => l
  | some c => if c = 0 then l else l.filter (fun d => decide (d.createdAt < c))

/-- The matching documents sorted descending by `createdAt` — the stream the
query would walk in full. -/
def sortedMatching (store : List EmojiDoc) (qy vis uid : Option String) : List EmojiDoc :=
  List.insertionSort docGe (store.filter (matchesFilters qy vis uid))

/-- The document page of one `list_user_emojis` call: filter, order descending
by `createdAt`, resume after the cursor, take `limit`. -/
def listPageDocs (store : List EmojiDoc) (qy vis uid : Option String)
    (limit : Nat) (cursor : Option Int) : List EmojiDoc :=
  (applyCursor cursor (sortedMatching store qy vis uid)).take limit

/-- The `{"emojis", "next_cursor", "has_more"}` dict returned by
`list_user_emojis`. -/
structure ListResult where
  emojis : List EmojiBase
  next_cursor : Option Int
  has_more : Bool
deriving DecidableEq, Repr

/-- `FirebaseService.list_user_emojis(query, limit, cursor, visibility, user_id)`:
`next_cursor = emojis[-1].createdAt if len(emojis) == limit else None`,
`has_more = len(emojis) == limit`. -/
def list_user_emojis (store : List EmojiDoc) (qy vis uid : Option String)
    (limit : Nat) (cursor : Option Int) : ListResult :=
  let emojis := (listPageDocs store qy vis uid limit cursor).map EmojiBase.ofDoc
  { emojis := emojis
    next_cursor :=
      if emojis.length = limit then (emojis[emojis.length - 1]?).map (·.createdAt) else none
    has_more := emojis.length = limit }

/-- The client pagination walk: start with a cursor (the spec's walk starts at
`None`), and keep requesting pages with the returned `next_cursor` while
`has_more` is true.  `fuel` bounds the number of requests so the walk is total;
the theorems use enough fuel that the walk is never cut short. -/
def paginateWalk (store : List EmojiDoc) (qy vis uid : Option String)
    (limit : Nat) : Nat → Option Int → List EmojiBase
  | 0, _ => []
  | fuel + 1, cursor =>
    let r := list_user_emojis store qy vis uid limit cursor
    r.emojis ++ (if r.has_more then paginateWalk store qy vis uid limit fuel r.next_cursor else [])

/-! ## `app/routes/emoji_routes.py` — listing routes -/

/-- The keyword parameters accepted by `FirebaseService.list_user_emojis`
(its signature: `query`, `limit`, `cursor`, `visibility`, `user_id`). -/
def list_user_emojis_params : List String :=
  ["query", "limit", "cursor", "visibility", "user_id"]

/-- The keyword arguments the `list_emojis` route handler passes to
`firebase_service.list_user_emojis(...)` — including `category`. -/
def list_emojis_call_keywords : List String :=
  ["query", "limit", "cursor", "visibility", "user_id", "category"]

/-- Python keyword-argument binding: the call binds iff every passed keyword is
an accepted parameter; otherwise the call raises `TypeError` ("got an
unexpected keyword argument"). -/
def kwargsBindOk (params passed : List String) : Bool :=
  passed.all params.contains

/-- The methods defined on `class FirebaseService` — Python attribute lookup on
the instance succeeds only for these. -/
def firebase_service_methods : List String :=
  ["__init__", "list_user_emojis", "list_user_packs",
   "increment_emoji_download_count", "categorize_emoji", "update_emoji_visibility"]

/-- GET `/` (`list_emojis` route) status: the handler calls
`firebase_service.list_user_emojis(query=…, limit=…, cursor=…, visibility=…,
user_id=…, category=…)`; if the keyword binding fails, the `TypeError` is
caught by `except Exception` and mapped to HTTP 500; otherwise the service call
runs and the route returns 200 (no storage failure in the pure model). -/
def list_emojis_route (store : List EmojiDoc) (qy vis uid : Option String)
    (limit : Nat) (cursor : Option Int) (category : Option String) : Nat :=
  if kwargsBindOk list_user_emojis_params list_emojis_call_keywords then
    let _ := list_user_emojis store qy vis uid limit cursor
    let _ := category
    200
  else 500

/-- GET `/popular` (`list_popular_emojis` route) status: the handler evaluates
`firebase_service.list_popular_emojis`, an attribute lookup on the service
instance; if the attribute does not exist the `AttributeError` is caught by
`except Exception` and mapped to HTTP 500. -/
def list_popular_emojis_route (store : List EmojiDoc) (qy vis uid : Option String)
    (limit : Nat) (cursor : Option Int) : Nat :=
  if firebase_service_methods.contains "list_popular_emojis" then
    let _ := list_user_emojis store qy vis uid limit cursor
    200
  else 500

/-! ## `app/models.py` — pydantic construction from raw data

`EmojiBase(**doc_data)` validates a raw untyped field map: required fields must
be present with the right type, optional fields default (`imageURL = None`,
`imageURLWithBackground = None`, `visibility = "Public"`), and unknown keys are
ignored (pydantic's default extra-field policy). -/

/-- A raw field value in a fetched document / JSON object. -/
inductive Value where
  | str : String → Value
  | int : Int → Value
  | null : Value
deriving DecidableEq, Repr

/-- A raw untyped document: a field map (each key at most once, as in a dict). -/
abbrev RawDoc := List (String × Value)

/-- Validate a required string field (`field_name: str = Field(...)`). -/
def getStrField (d : RawDoc) (k : String) : Except String String :=
  match d.lookup k with
  | some (.str s) => .ok s
  | some _ => .error (k ++ ": value is not a valid string")
  | none => .error (k ++ ": field required")

/-- Validate an optional string field (`Optional[str] = Field(None)`):
absent or null becomes `none`. -/
def getOptStrField (d : RawDoc) (k : String) : Except String (Option String) :=
  match d.lookup k with
  | some (.str s) => .ok (some s)
  | some .null => .ok none
  | some _ => .error (k ++ ": value is not a valid string")
  | none => .ok none

/-- Validate a string field with a default (`visibility: str = Field("Public")`). -/
def getStrFieldD (d : RawDoc) (k dflt : String) : Except String String :=
  match d.lookup k with
  | some (.str s) => .ok s
  | some _ => .error (k ++ ": value is not a valid string")
  | none => .ok dflt

/-- Validate a required integer field (`createdAt: int = Field(...)`). -/
def getIntField (d : RawDoc) (k : String) : Except String Int :=
  match d.lookup k with
  | some (.int i) => .ok i
  | some _ => .error (k ++ ": value is not a valid integer")
  | none => .error (k ++ ": field required")

/-- `EmojiBase(**d)` — pydantic validation of the eight declared fields; any
other key in `d` is ignored. -/
def mkEmojiBase (d : RawDoc) : Except String EmojiBase := do
  let emojiID ← getStrField d "emojiID"
  let imageURL ← getOptStrField d "imageURL"
  let imageURLWithBackground ← getOptStrField d "imageURLWithBackground"
  let predictionID ← getStrField d "predictionID"
  let prompt ← getStrField d "prompt"
  let userID ← getStrField d "userID"
  let visibility ← getStrFieldD d "visibility" "Public"
  let createdAt ← getIntField d "createdAt"
  return { emojiID := emojiID, imageURL := imageURL,
           imageURLWithBackground := imageURLWithBackground,
           predictionID := predictionID, prompt := prompt, userID := userID,
           visibility := visibility, createdAt := createdAt }

/-! ## `scripts/add_download_count.py` — downloadCount backfill -/

/-- The per-document step of the backfill: documents that already contain a
`downloadCount` field are skipped; documents lacking it get `downloadCount = 0`. -/
def backfillDoc (d : EmojiDoc) : EmojiDoc :=
  if d.downloadCount.isSome then d else { d with downloadCount := some 0 }

/-- `process_user_emojis`: apply the backfill step to every document of one
user's sub-collection. -/
def process_user_emojis (docs : List EmojiDoc) : List EmojiDoc :=
  docs.map backfillDoc

/-- `add_download_count_with_batching`: keyset-paginated collection-group scan
in fixed-size batches, applying the backfill step to each document of each
batch; the loop stops on an empty batch or a batch shorter than the batch
size (the script uses `batch_size = 100`). -/
def add_download_count_with_batching (bs : Nat) (docs : List EmojiDoc) : List EmojiDoc :=
  if h : bs = 0 ∨ docs = [] then docs
  else (docs.take bs).map backfillDoc ++ add_download_count_with_batching bs (docs.drop bs)
termination_by docs.length
decreasing_by
  have hbs : bs ≠ 0 := fun hh => h (Or.inl hh)
  have hd : docs ≠ [] := fun hh => h (Or.inr hh)
  have hpos : 0 < docs.length := List.length_pos.mpr hd
  simp only [List.length_drop]
  omega

/-! ## `scripts/migrate_emojis.py` — bulk emoji migration -/

/-- A source record of `emojis.json` (only the fields the script reads;
`none` models a missing key, read via `json_emoji.get(..., "")`). -/
structure SourceEmoji where
  name : Option String
  image_url : Option String
deriving DecidableEq, Repr

/-- The target migration user (`FIXED_USER_ID`). -/
def FIXED_USER_ID : String := "gs8uhH0QtpfHDQgTa2YXf2Zdb9K2"

/-- `DEFAULT_DOWNLOAD_COUNT` for migrated emojis. -/
def DEFAULT_DOWNLOAD_COUNT : Int := 10

/-- `DEFAULT_VISIBILITY` for migrated emojis. -/
def DEFAULT_VISIBILITY : String := "Public"

/-- `string.ascii_letters + string.digits` — the 62-character id alphabet. -/
def idAlphabet : List Char :=
  ((List.range 26).map (fun i => Char.ofNat (97 + i))) ++
  ((List.range 26).map (fun i => Char.ofNat (65 + i))) ++
  ((List.range 10).map (fun i => Char.ofNat (48 + i)))

/-- `generate_emoji_id`: 20 characters drawn from the alphabet;
`pick i` is the random choice `secrets.choice` makes for position `i`
(reduced mod the alphabet size so any `pick` is a valid choice stream). -/
def generate_emoji_id (pick : Nat → Nat) : String :=
  String.mk ((List.range 20).map
    (fun i => idAlphabet.get ⟨pick i % idAlphabet.length, Nat.mod_lt _ (by decide)⟩))

/-- `EmojiMigrationService.categorize_emoji`: wraps the Gemini client call in a
second try/except defaulting to `"Emotions"`; the client itself never raises,
so the wrapper returns exactly the client's result. -/
def migrate_categorize (oracle : String → Option String) (prompt : String) : String :=
  categorize_emoji_prompt oracle prompt

/-- The Firestore dict built by `create_firestore_emoji` (field `imageURLWithBackground`
is set to Python `None`, i.e. stored as null/absent — `none` here). -/
structure FirestoreEmoji where
  category : String
  createdAt : Int
  downloadCount : Int
  emojiID : String
  imageURL : String
  imageURLWithBackground : Option String
  predictionID : String
  prompt : String
  userID : String
  visibility : String
deriving DecidableEq, Repr

/-- One migration input: the source record, the id-generation choice stream for
this record, and the wall clock (`int(time.time() * 1000)`) when it is processed. -/
abbrev MigrationInput := SourceEmoji × (Nat → Nat) × Int

/-- `create_firestore_emoji(json_emoji)`: trim `name` and `image_url`, raise
`ValueError` if either is empty after trimming, else build the canonical
record. -/
def create_firestore_emoji (oracle : String → Option String) (rec : MigrationInput) :
    Except PyErr FirestoreEmoji :=
  let name := pyStrip (rec.1.name.getD "")
  let image_url := pyStrip (rec.1.image_url.getD "")
  if name = "" then
    .error (.valueError "Missing or empty name field in emoji")
  else if image_url = "" then
    .error (.valueError "Missing or empty image_url field in emoji")
  else
    .ok { category := migrate_categorize oracle name
          createdAt := rec.2.2
          downloadCount := DEFAULT_DOWNLOAD_COUNT
          emojiID := generate_emoji_id rec.2.1
          imageURL := image_url
          imageURLWithBackground := none
          predictionID := "scraper"
          prompt := name
          userID := FIXED_USER_ID
          visibility := DEFAULT_VISIBILITY }

/-- Sequential processing of a list of migration inputs: returns the records
written to Firestore (in order) and the (successful, failed) counters; a record
whose construction raises is counted failed, produces no write, and the loop
continues with the next record. -/
def process_migration_list (oracle : String → Option String) :
    List MigrationInput → List FirestoreEmoji × Nat × Nat
  | [] => ([], 0, 0)
  | r :: rs =>
    let rest := process_migration_list oracle rs
    match create_firestore_emoji oracle r with
    | .ok fe => (fe :: rest.1, rest.2.1 + 1, rest.2.2)
    | .error _ => (rest.1, rest.2.1, rest.2.2 + 1)

/-- `migrate_emojis_batch`: process the input list in batches (the script uses
`batch_size = 50`), accumulating writes and success/failure counts across
batches. -/
def migrate_emojis_batch (bs : Nat) (oracle : String → Option String)
    (recs : List MigrationInput) : List FirestoreEmoji × Nat × Nat :=
  if h : bs = 0 ∨ recs.length = 0 then ([], 0, 0)
  else
    let batch := process_migration_list oracle (recs.take bs)
    let rest := migrate_emojis_batch bs oracle (recs.drop bs)
    (batch.1 ++ rest.1, batch.2.1 + rest.2.1, batch.2.2 + rest.2.2)
termination_by recs.length
decreasing_by
  have hbs : bs ≠ 0 := fun hh => h (Or.inl hh)
  have hd : recs.length ≠ 0 := fun hh => h (Or.inr hh)
  simp only [List.length_drop]
  omega

/-! # Theorems -/

/-! ## C5 — the categorization client is total with `"Emotions"` fallback -/

/-- C5: for every prompt and every behaviour of the underlying AI call,
`categorize_emoji_prompt` returns one of the five fixed labels; when the call
fails it returns `"Emotions"`, and when the trimmed output is not exactly one
of the five labels it returns `"Emotions"`.  (The Lean model is a total
function, mirroring that the Python `try/except` swallows every exception.) -/
theorem categorize_emoji_prompt_total_fallback (oracle : String → Option String)
    (prompt : String) :
    categorize_emoji_prompt oracle prompt ∈ geminiCategories
    ∧ (oracle prompt = none → categorize_emoji_prompt oracle prompt = "Emotions")
    ∧ (∀ t, oracle prompt = some t → pyStrip t ∉ geminiCategories →
        categorize_emoji_prompt oracle prompt = "Emotions") := by
  unfold categorize_emoji_prompt
  cases h : oracle prompt with
  | none =>
    refine ⟨by decide, fun _ => rfl, fun t ht => by simp at ht⟩
  | some t =>
    by_cases hm : pyStrip t ∈ geminiCategories
    · refine ⟨by simpa [hm], fun hn => by simp at hn, ?_⟩
      intro t2 ht2 hnm
      cases ht2
      exact absurd hm hnm
    · refine ⟨by simp [hm]; decide, fun hn => by simp at hn, ?_⟩
      intro t2 ht2 _
      cases ht2
      simp [hm]

/-- Witness for C5 at a concrete out-of-set AI response. -/
theorem categorize_emoji_prompt_total_fallback_witness :
    categorize_emoji_prompt (fun _ => some "Vehicles") "dog" = "Emotions" :=
  (categorize_emoji_prompt_total_fallback (fun _ => some "Vehicles") "dog").2.2
    "Vehicles" rfl (by decide)

/-! ## C6 — invalid visibility is rejected before any storage access -/

/-- C6: for every visibility value other than exactly `"Public"` or
`"Private"`, `update_emoji_visibility` fails with the Invalid-Input
`ValueError` and performs zero storage operations (so the store is untouched). -/
theorem update_emoji_visibility_invalid_rejected (store : Store) (u e vis : String)
    (h1 : vis ≠ "Public") (h2 : vis ≠ "Private") :
    update_emoji_visibility store u e vis
      = (.error (.valueError "Visibility must be 'Public' or 'Private'"), []) := by
  unfold update_emoji_visibility
  have hmem : vis ∉ (["Public", "Private"] : List String) := by simp [h1, h2]
  simp [hmem]

/-- Witness for C6 at `visibility = "Hidden"` on the empty store. -/
theorem update_emoji_visibility_invalid_rejected_witness :
    update_emoji_visibility ([] : Store) "u1" "e1" "Hidden"
      = (.error (.valueError "Visibility must be 'Public' or 'Private'"), []) :=
  update_emoji_visibility_invalid_rejected [] "u1" "e1" "Hidden"
    (by decide) (by decide)

/-! ## C3 — not-found mapping of the three mutations -/

/-- C3 (refuting the claim as stated): when the `(user_id, emoji_id)` document
does not exist, categorize and update-visibility fail with a `ValueError`
mapped to HTTP 404, but increment-download-count performs
`doc_ref.update(...)` first, whose Firestore NotFound is not a `ValueError`,
so the route's `except Exception` maps it to HTTP 500 — not 404. -/
theorem notfound_mapping_statuses (store : Store) (oracle : String → Option String)
    (u e : String) (h : docGet store u e = none) :
    increment_download_count_route store u e = 500
    ∧ categorize_emoji_route oracle store u e = 404
    ∧ update_emoji_visibility_route store u e "Public" = 404 := by
  refine ⟨?_, ?_, ?_⟩
  · unfold increment_download_count_route increment_emoji_download_count docUpdate
    simp [h, exceptStatus]
  · unfold categorize_emoji_route categorize_emoji
    simp [h, exceptStatus]
  · unfold update_emoji_visibility_route update_emoji_visibility
    simp [h, exceptStatus]

/-- Witness for C3 on the empty store: the missing-document increment returns
HTTP 500 while the other two mutations return 404. -/
theorem notfound_mapping_statuses_witness :
    docGet ([] : Store) "u1" "e1" = none
    ∧ increment_download_count_route ([] : Store) "u1" "e1" = 500
    ∧ categorize_emoji_route (fun _ => none) ([] : Store) "u1" "e1" = 404
    ∧ update_emoji_visibility_route ([] : Store) "u1" "e1" "Public" = 404 :=
  ⟨rfl,
   (notfound_mapping_statuses [] (fun _ => none) "u1" "e1" rfl).1,
   (notfound_mapping_statuses [] (fun _ => none) "u1" "e1" rfl).2.1,
   (notfound_mapping_statuses [] (fun _ => none) "u1" "e1" rfl).2.2⟩

/-! ## Helper: inversion of `Except` bind -/

/-- A bind chain in `Except` succeeds iff each step succeeds. -/
theorem exceptBind_eq_ok {ε α β : Type} (x : Except ε α) (f : α → Except ε β) (b : β) :
    (x >>= f) = Except.ok b ↔ ∃ a, x = Except.ok a ∧ f a = Except.ok b := by
  cases x with
  | error e => simp [Bind.bind, Except.bind]
  | ok a => simp [Bind.bind, Except.bind]

/-! ## C1 — the emoji listing route -/

/-- C1 (refuting the claim): the `list_emojis` handler passes the keyword
argument `category` to `FirebaseService.list_user_emojis`, whose signature does
not accept it; the keyword binding fails (`TypeError`), the handler's
`except Exception` catches it, and every request — storage failure or not,
with or without a `category` value — returns HTTP 500, never 200. -/
theorem list_emojis_route_always_500 (store : List EmojiDoc)
    (qy vis uid : Option String) (limit : Nat) (cursor : Option Int)
    (category : Option String) :
    list_emojis_route store qy vis uid limit cursor category = 500 := by
  have hbind : kwargsBindOk list_user_emojis_params list_emojis_call_keywords = false := by
    decide
  simp [list_emojis_route, hbind]

/-! ## C2 — the popular listing route -/

/-- C2 (refuting the claim): the `list_popular_emojis` handler calls
`firebase_service.list_popular_emojis`, but `FirebaseService` defines no such
method; the attribute lookup fails (`AttributeError`), the handler's
`except Exception` catches it, and every request returns HTTP 500 — no 200
list envelope ordered by `downloadCount` is ever produced. -/
theorem list_popular_emojis_route_always_500 (store : List EmojiDoc)
    (qy vis uid : Option String) (limit : Nat) (cursor : Option Int) :
    list_popular_emojis_route store qy vis uid limit cursor = 500 := by
  simp only [list_popular_emojis_route]
  rw [if_neg (by decide)]

/-! ## C7 — idempotent downloadCount backfill -/

/-- The per-document backfill step is idempotent. -/
theorem backfillDoc_idem (d : EmojiDoc) : backfillDoc (backfillDoc d) = backfillDoc d := by
  by_cases h : d.downloadCount.isSome
  · simp [backfillDoc, h]
  · simp [backfillDoc, h]

/-- The batched collection-group scan with a positive batch size applies the
per-document step to every document exactly once. -/
theorem add_download_count_with_batching_eq_map (bs : Nat) (hbs : 1 ≤ bs) :
    ∀ docs, add_download_count_with_batching bs docs = docs.map backfillDoc := by
  have H : ∀ n docs, List.length docs ≤ n →
      add_download_count_with_batching bs docs = docs.map backfillDoc := by
    intro n
    induction n with
    | zero =>
      intro docs hd
      have hnil : docs = [] := List.eq_nil_of_length_eq_zero (Nat.le_zero.mp hd)
      subst hnil
      rw [add_download_count_with_batching]
      simp
    | succ n ih =>
      intro docs hd
      rw [add_download_count_with_batching]
      split
      · rename_i hcase
        rcases hcase with hb | hnil
        · omega
        · subst hnil; simp
      · rw [ih (docs.drop bs) (by simp [List.length_drop]; omega)]
        rw [← List.map_append, List.take_append_drop]
  exact fun docs => H docs.length docs le_rfl

/-- C7: the backfill is idempotent — running the batched backfill twice yields
the same store as running it once; every document already containing a
`downloadCount` field is left unmodified by the per-document step, and a
document lacking the field receives `downloadCount = 0`. -/
theorem backfill_idempotent (docs : List EmojiDoc) :
    add_download_count_with_batching 100 (add_download_count_with_batching 100 docs)
      = add_download_count_with_batching 100 docs
    ∧ (∀ d ∈ docs, d.downloadCount.isSome → backfillDoc d = d)
    ∧ (∀ d ∈ docs, d.downloadCount = none → (backfillDoc d).downloadCount = some 0) := by
  refine ⟨?_, ?_, ?_⟩
  · rw [add_download_count_with_batching_eq_map 100 (by norm_num),
        add_download_count_with_batching_eq_map 100 (by norm_num),
        List.map_map]
    exact List.map_congr_left fun d _ => backfillDoc_idem d
  · intro d _ h
    simp [backfillDoc, h]
  · intro d _ h
    simp [backfillDoc, h]

/-- Witness for C7 on a concrete two-document store (one document with the
field, one without). -/
theorem backfill_idempotent_witness :
    add_download_count_with_batching 100
        (add_download_count_with_batching 100
          [{ emojiID := "a", imageURL := none, imageURLWithBackground := none,
             predictionID := "p", prompt := "x", userID := "u",
             visibility := "Public", createdAt := 1, downloadCount := some 7,
             category := none },
           { emojiID := "b", imageURL := none, imageURLWithBackground := none,
             predictionID := "p", prompt := "x", userID := "u",
             visibility := "Public", createdAt := 2, downloadCount := none,
             category := none }])
      = add_download_count_with_batching 100
          [{ emojiID := "a", imageURL := none, imageURLWithBackground := none,
             predictionID := "p", prompt := "x", userID := "u",
             visibility := "Public", createdAt := 1, downloadCount := some 7,
             category := none },
           { emojiID := "b", imageURL := none, imageURLWithBackground := none,
             predictionID := "p", prompt := "x", userID := "u",
             visibility := "Public", createdAt := 2, downloadCount := none,
             category := none }]
    ∧ backfillDoc
        { emojiID := "a", imageURL := none, imageURLWithBackground := none,
          predictionID := "p", prompt := "x", userID := "u",
          visibility := "Public", createdAt := 1, downloadCount := some 7,
          category := none }
      = { emojiID := "a", imageURL := none, imageURLWithBackground := none,
          predictionID := "p", prompt := "x", userID := "u",
          visibility := "Public", createdAt := 1, downloadCount := some 7,
          category := none } :=
  ⟨(backfill_idempotent _).1,
   (backfill_idempotent
      [{ emojiID := "a", imageURL := none, imageURLWithBackground := none,
         predictionID := "p", prompt := "x", userID := "u",
         visibility := "Public", createdAt := 1, downloadCount := some 7,
         category := none }]).2.1 _ (by simp) (by decide)⟩

/-! ## C8 — bulk emoji migration record construction -/

/-- The generated emoji id has 20 characters. -/
theorem generate_emoji_id_length (pick : Nat → Nat) :
    (generate_emoji_id pick).length = 20 := by
  simp [generate_emoji_id, String.length]

/-- Every character of a generated emoji id is alphanumeric. -/
theorem generate_emoji_id_alnum (pick : Nat → Nat) :
    ∀ c ∈ (generate_emoji_id pick).data, c.isAlphanum := by
  intro c hc
  have halpha : ∀ x ∈ idAlphabet, x.isAlphanum := by decide
  simp only [generate_emoji_id, List.mem_map] at hc
  obtain ⟨i, _, hceq⟩ := hc
  rw [← hceq]
  exact halpha _ (List.get_mem _ _ _)

/-- Sequential migration processing: the writes are exactly the successfully
constructed records in order, the success count is their number, and the
failure count is the number of records whose construction raised. -/
theorem process_migration_list_spec (oracle : String → Option String) :
    ∀ recs : List MigrationInput,
      process_migration_list oracle recs
        = (recs.filterMap (fun r => (create_firestore_emoji oracle r).toOption),
           (recs.filterMap (fun r => (create_firestore_emoji oracle r).toOption)).length,
           recs.length
             - (recs.filterMap (fun r => (create_firestore_emoji oracle r).toOption)).length) := by
  intro recs
  induction recs with
  | nil => rfl
  | cons r rs ih =>
    have hle : (rs.filterMap (fun r => (create_firestore_emoji oracle r).toOption)).length
        ≤ rs.length := List.length_filterMap_le _ _
    simp only [process_migration_list, ih, List.filterMap_cons]
    cases hc : create_firestore_emoji oracle r with
    | ok fe =>
      rw [show (Except.ok fe : Except PyErr FirestoreEmoji).toOption = some fe from rfl]
      simp <;> omega
    | error err =>
      rw [show (Except.error err : Except PyErr FirestoreEmoji).toOption
            = (none : Option FirestoreEmoji) from rfl]
      simp <;> omega

/-- Splitting a migration input list splits the writes and the counters. -/
theorem process_migration_list_append (oracle : String → Option String)
    (a b : List MigrationInput) :
    process_migration_list oracle (a ++ b)
      = ((process_migration_list oracle a).1 ++ (process_migration_list oracle b).1,
         (process_migration_list oracle a).2.1 + (process_migration_list oracle b).2.1,
         (process_migration_list oracle a).2.2 + (process_migration_list oracle b).2.2) := by
  induction a with
  | nil => simp [process_migration_list]
  | cons r rs ih =>
    cases hc : create_firestore_emoji oracle r with
    | ok fe =>
      simp only [List.cons_append, process_migration_list, hc, List.append_eq, ih,
        Prod.mk.injEq]
      refine ⟨?_, ?_, ?_⟩ <;> first | trivial | omega
    | error err =>
      simp only [List.cons_append, process_migration_list, hc, List.append_eq, ih,
        Prod.mk.injEq]
      refine ⟨?_, ?_, ?_⟩ <;> first | trivial | omega

/-- The batched migration loop with a positive batch size is the sequential
processing of the whole input list. -/
theorem migrate_emojis_batch_eq (bs : Nat) (hbs : 1 ≤ bs)
    (oracle : String → Option String) :
    ∀ recs, migrate_emojis_batch bs oracle recs = process_migration_list oracle recs := by
  have H : ∀ n recs, List.length recs ≤ n →
      migrate_emojis_batch bs oracle recs = process_migration_list oracle recs := by
    intro n
    induction n with
    | zero =>
      intro recs hd
      have hnil : recs = [] := List.eq_nil_of_length_eq_zero (Nat.le_zero.mp hd)
      subst hnil
      rw [migrate_emojis_batch]
      simp [process_migration_list]
    | succ n ih =>
      intro recs hd
      rw [migrate_emojis_batch]
      split
      · rename_i hcase
        rcases hcase with hb | hnil
        · omega
        · have : recs = [] := List.eq_nil_of_length_eq_zero hnil
          subst this
          simp [process_migration_list]
      · rw [ih (recs.drop bs) (by simp [List.length_drop]; omega)]
        rw [← process_migration_list_append, List.take_append_drop]
  exact fun recs => H recs.length recs le_rfl

/-- C8: a source record with non-empty trimmed `name` and `image_url` is
migrated to exactly the canonical record (AI category of the trimmed name,
processing-time `createdAt`, `downloadCount = 10`, the generated 20-character
alphanumeric `emojiID`, trimmed `imageURL`, absent `imageURLWithBackground`,
`predictionID = "scraper"`, trimmed `prompt`, the fixed target user, `"Public"`
visibility); generated ids are 20 alphanumeric characters; a record empty
after trimming raises; and the batch loop writes exactly the successful
records while counting the failed ones, continuing past failures. -/
theorem migrate_emojis_record_shape (oracle : String → Option String) :
    (∀ rec : MigrationInput,
        pyStrip (rec.1.name.getD "") ≠ "" →
        pyStrip (rec.1.image_url.getD "") ≠ "" →
        create_firestore_emoji oracle rec = .ok
          { category := migrate_categorize oracle (pyStrip (rec.1.name.getD ""))
            createdAt := rec.2.2
            downloadCount := 10
            emojiID := generate_emoji_id rec.2.1
            imageURL := pyStrip (rec.1.image_url.getD "")
            imageURLWithBackground := none
            predictionID := "scraper"
            prompt := pyStrip (rec.1.name.getD "")
            userID := "gs8uhH0QtpfHDQgTa2YXf2Zdb9K2"
            visibility := "Public" })
    ∧ (∀ pick : Nat → Nat, (generate_emoji_id pick).length = 20
        ∧ ∀ c ∈ (generate_emoji_id pick).data, c.isAlphanum)
    ∧ (∀ rec : MigrationInput,
        pyStrip (rec.1.name.getD "") = "" ∨ pyStrip (rec.1.image_url.getD "") = "" →
        ∃ msg, create_firestore_emoji oracle rec = .error (.valueError msg))
    ∧ (∀ recs : List MigrationInput,
        migrate_emojis_batch 50 oracle recs
          = (recs.filterMap (fun r => (create_firestore_emoji oracle r).toOption),
             (recs.filterMap (fun r => (create_firestore_emoji oracle r).toOption)).length,
             recs.length
               - (recs.filterMap
                   (fun r => (create_firestore_emoji oracle r).toOption)).length)) := by
  refine ⟨?_, fun pick => ⟨generate_emoji_id_length pick, generate_emoji_id_alnum pick⟩,
          ?_, ?_⟩
  · intro rec h1 h2
    simp [create_firestore_emoji, h1, h2, DEFAULT_DOWNLOAD_COUNT, DEFAULT_VISIBILITY,
          FIXED_USER_ID]
  · intro rec h
    rcases h with h | h
    · exact ⟨"Missing or empty name field in emoji",
        by simp [create_firestore_emoji, h]⟩
    · by_cases hn : pyStrip (rec.1.name.getD "") = ""
      · exact ⟨"Missing or empty name field in emoji",
          by simp [create_firestore_emoji, hn]⟩
      · exact ⟨"Missing or empty image_url field in emoji",
          by simp [create_firestore_emoji, hn, h]⟩
  · intro recs
    rw [migrate_emojis_batch_eq 50 (by norm_num) oracle recs,
        process_migration_list_spec]

/-- Witness for C8: a good record migrates to the fully evaluated canonical
record; a record whose name trims to empty raises. -/
theorem migrate_emojis_record_shape_witness :
    create_firestore_emoji (fun _ => none)
        ({ name := some " cat ", image_url := some " http " }, fun _ => 0, 5)
      = .ok
        { category := "Emotions", createdAt := 5, downloadCount := 10,
          emojiID := "aaaaaaaaaaaaaaaaaaaa", imageURL := "http",
          imageURLWithBackground := none, predictionID := "scraper",
          prompt := "cat", userID := "gs8uhH0QtpfHDQgTa2YXf2Zdb9K2",
          visibility := "Public" }
    ∧ ∃ msg, create_firestore_emoji (fun _ => none)
        ({ name := some "   ", image_url := some "u" }, fun _ => 0, 5)
      = .error (.valueError msg) := by
  constructor
  · rw [(migrate_emojis_record_shape (fun _ => none)).1
      ({ name := some " cat ", image_url := some " http " }, fun _ => 0, 5)
      (by decide) (by decide)]
    rfl
  · exact (migrate_emojis_record_shape (fun _ => none)).2.2.1
      ({ name := some "   ", image_url := some "u" }, fun _ => 0, 5)
      (Or.inl (by decide))

/-! ## C9 — `imageURL` is optional in `EmojiBase` -/

/-- Counterexample to C9 as stated: constructing `EmojiBase` from raw data
lacking `imageURL` (all genuinely required fields present) succeeds with
`imageURL = None` — it does not fail with a validation error. -/
theorem mkEmojiBase_missing_imageURL_ok :
    mkEmojiBase
        [("emojiID", .str "e1"), ("predictionID", .str "pr"), ("prompt", .str "cat"),
         ("userID", .str "u1"), ("createdAt", .int 1700000000000)]
      = .ok { emojiID := "e1", imageURL := none, imageURLWithBackground := none,
              predictionID := "pr", prompt := "cat", userID := "u1",
              visibility := "Public", createdAt := 1700000000000 } := by
  rfl

/-- C9 (amended): `imageURL` is optional with default `None` — for raw data
lacking an `imageURL` key, dropping the key from otherwise-valid data never
causes the failure the claim describes: if the data extended with any
`imageURL` string validates to `r`, the data without it validates to `r` with
`imageURL = None`. -/
theorem mkEmojiBase_imageURL_optional (d : RawDoc) (s : String) (r : EmojiBase)
    (hno : d.lookup "imageURL" = none)
    (hok : mkEmojiBase (("imageURL", Value.str s) :: d) = .ok r) :
    mkEmojiBase d = .ok { r with imageURL := none } := by
  have e1 : getStrField (("imageURL", Value.str s) :: d) "emojiID"
      = getStrField d "emojiID" := by simp [getStrField, List.lookup]
  have e2 : getOptStrField (("imageURL", Value.str s) :: d) "imageURL"
      = .ok (some s) := by simp [getOptStrField, List.lookup]
  have e3 : getOptStrField (("imageURL", Value.str s) :: d) "imageURLWithBackground"
      = getOptStrField d "imageURLWithBackground" := by simp [getOptStrField, List.lookup]
  have e4 : getStrField (("imageURL", Value.str s) :: d) "predictionID"
      = getStrField d "predictionID" := by simp [getStrField, List.lookup]
  have e5 : getStrField (("imageURL", Value.str s) :: d) "prompt"
      = getStrField d "prompt" := by simp [getStrField, List.lookup]
  have e6 : getStrField (("imageURL", Value.str s) :: d) "userID"
      = getStrField d "userID" := by simp [getStrField, List.lookup]
  have e7 : getStrFieldD (("imageURL", Value.str s) :: d) "visibility" "Public"
      = getStrFieldD d "visibility" "Public" := by simp [getStrFieldD, List.lookup]
  have e8 : getIntField (("imageURL", Value.str s) :: d) "createdAt"
      = getIntField d "createdAt" := by simp [getIntField, List.lookup]
  have e2d : getOptStrField d "imageURL" = .ok none := by simp [getOptStrField, hno]
  simp only [mkEmojiBase, e1, e2, e3, e4, e5, e6, e7, e8] at hok
  simp only [mkEmojiBase, e2d]
  simp only [exceptBind_eq_ok] at hok ⊢
  obtain ⟨a1, h1, hok⟩ := hok
  obtain ⟨a2, h2, hok⟩ := hok
  obtain ⟨a3, h3, hok⟩ := hok
  obtain ⟨a4, h4, hok⟩ := hok
  obtain ⟨a5, h5, hok⟩ := hok
  obtain ⟨a6, h6, hok⟩ := hok
  obtain ⟨a7, h7, hok⟩ := hok
  obtain ⟨a8, h8, hok⟩ := hok
  cases h2
  refine ⟨a1, h1, none, rfl, a3, h3, a4, h4, a5, h5, a6, h6, a7, h7, a8, h8, ?_⟩
  simp only [pure, Except.pure, Except.ok.injEq] at hok ⊢
  rw [← hok]

/-- Witness for C9 (amended) at concrete raw data. -/
theorem mkEmojiBase_imageURL_optional_witness :
    mkEmojiBase
        [("emojiID", .str "e2"), ("predictionID", .str "pr"), ("prompt", .str "dog"),
         ("userID", .str "u2"), ("createdAt", .int 7)]
      = .ok { emojiID := "e2", imageURL := none, imageURLWithBackground := none,
              predictionID := "pr", prompt := "dog", userID := "u2",
              visibility := "Public", createdAt := 7 } :=
  mkEmojiBase_imageURL_optional
    [("emojiID", .str "e2"), ("predictionID", .str "pr"), ("prompt", .str "dog"),
     ("userID", .str "u2"), ("createdAt", .int 7)]
    "http://img" _ rfl rfl

/-! ## C10 — listing responses carry only the eight `EmojiBase` fields -/

/-- C10: pydantic construction ignores the `downloadCount` and `category`
keys present in storage (prepending them to any raw data leaves the
constructed record unchanged); the structured conversion likewise discards
those two document fields; and the listing's response records are exactly the
page documents converted through that eight-field conversion. -/
theorem listing_drops_extra_fields :
    (∀ (d : RawDoc) (v w : Value),
        mkEmojiBase (("downloadCount", v) :: ("category", w) :: d) = mkEmojiBase d)
    ∧ (∀ (doc : EmojiDoc) (x : Option Int) (y : Option String),
        EmojiBase.ofDoc { doc with downloadCount := x, category := y }
          = EmojiBase.ofDoc doc)
    ∧ (∀ (store : List EmojiDoc) (qy vis uid : Option String) (limit : Nat)
          (cursor : Option Int),
        (list_user_emojis store qy vis uid limit cursor).emojis
          = (listPageDocs store qy vis uid limit cursor).map EmojiBase.ofDoc) := by
  refine ⟨?_, fun _ _ _ => rfl, fun _ _ _ _ _ _ => rfl⟩
  intro d v w
  simp [mkEmojiBase, getStrField, getOptStrField, getStrFieldD, getIntField, List.lookup]

/-! ## C4 — pagination completeness -/

/-- In a strictly descending list, the documents strictly below the key at
index `n` are exactly the suffix after index `n`. -/
theorem filter_lt_getElem_eq_drop (l : List EmojiDoc) (hl : l.Pairwise docGt) :
    ∀ (n : Nat) (hn : n < l.length),
      l.filter (fun d => decide (d.createdAt < l[n].createdAt)) = l.drop (n + 1) := by
  induction l with
  | nil => intro n hn; simp at hn
  | cons x xs ih =>
    intro n hn
    rcases List.pairwise_cons.mp hl with ⟨hx, hxs⟩
    cases n with
    | zero =>
      rw [List.getElem_cons_zero, List.filter_cons]
      rw [if_neg (by simp)]
      rw [List.drop_succ_cons, List.drop_zero]
      apply List.filter_eq_self.mpr
      intro a ha
      exact decide_eq_true (hx a ha)
    | succ m =>
      have hm : m < xs.length := by simpa using hn
      rw [List.getElem_cons_succ, List.filter_cons]
      have hxf : ¬ (decide (x.createdAt < xs[m].createdAt) = true) := by
        have hgt : docGt x xs[m] := hx _ (List.getElem_mem hm)
        simp only [decide_eq_true_eq]
        exact not_lt.mpr (le_of_lt hgt)
      rw [if_neg hxf, List.drop_succ_cons]
      exact ih hxs m hm

/-- Walking from a cursor whose application leaves exactly the suffix after
index `k` yields precisely that suffix, given pairwise-distinct positive
`createdAt` keys, a positive limit, and enough fuel. -/
theorem paginateWalk_drop (store : List EmojiDoc) (qy vis uid : Option String)
    (limit : Nat) (hlim : 1 ≤ limit)
    (hsorted : (sortedMatching store qy vis uid).Pairwise docGt)
    (hpos : ∀ d ∈ sortedMatching store qy vis uid, 0 < d.createdAt) :
    ∀ (fuel k : Nat) (c : Option Int),
      applyCursor c (sortedMatching store qy vis uid)
        = (sortedMatching store qy vis uid).drop k →
      ((sortedMatching store qy vis uid).drop k).length + 1 ≤ fuel →
      paginateWalk store qy vis uid limit fuel c
        = ((sortedMatching store qy vis uid).drop k).map EmojiBase.ofDoc := by
  intro fuel
  induction fuel with
  | zero => intro k c _ hf; exact absurd hf (by omega)
  | succ f ih =>
    intro k c hc hf
    have hemojis : (list_user_emojis store qy vis uid limit c).emojis
        = (((sortedMatching store qy vis uid).drop k).take limit).map EmojiBase.ofDoc := by
      simp only [list_user_emojis, listPageDocs, hc]
    by_cases hshort : ((sortedMatching store qy vis uid).drop k).length < limit
    · -- A short page: everything left fits, `has_more` is false, the walk stops.
      have htake : ((sortedMatching store qy vis uid).drop k).take limit
          = (sortedMatching store qy vis uid).drop k :=
        List.take_of_length_le (Nat.le_of_lt hshort)
      have hhm : (list_user_emojis store qy vis uid limit c).has_more = false := by
        simp only [list_user_emojis, listPageDocs, hc, List.length_map, htake]
        exact decide_eq_false (by omega)
      simp only [paginateWalk, hhm, Bool.false_eq_true, if_false, List.append_nil]
      rw [hemojis, htake]
    · -- A full page: `has_more` is true and the next cursor is the page's last key.
      push_neg at hshort
      have hplen : (((sortedMatching store qy vis uid).drop k).take limit).length = limit := by
        rw [List.length_take, Nat.min_eq_left hshort]
      have hdl : limit ≤ (sortedMatching store qy vis uid).length - k := by
        have h2 := hshort
        rw [List.length_drop] at h2
        exact h2
      have hidx : k + (limit - 1) < (sortedMatching store qy vis uid).length := by omega
      have hhm : (list_user_emojis store qy vis uid limit c).has_more = true := by
        simp [list_user_emojis, listPageDocs, hc, List.length_map, hplen]
        omega
      have hnc : (list_user_emojis store qy vis uid limit c).next_cursor
          = some ((sortedMatching store qy vis uid)[k + (limit - 1)].createdAt) := by
        simp only [list_user_emojis, listPageDocs, hc, List.length_map, hplen]
        rw [if_pos trivial, List.getElem?_map, List.getElem?_take, if_pos (by omega),
            List.getElem?_drop, List.getElem?_eq_getElem hidx]
        rfl
      have hkey : 0 < (sortedMatching store qy vis uid)[k + (limit - 1)].createdAt :=
        hpos _ (List.getElem_mem hidx)
      have hc2 : applyCursor
            (some ((sortedMatching store qy vis uid)[k + (limit - 1)].createdAt))
            (sortedMatching store qy vis uid)
          = (sortedMatching store qy vis uid).drop (k + limit) := by
        simp only [applyCursor]
        rw [if_neg (by omega)]
        rw [filter_lt_getElem_eq_drop (sortedMatching store qy vis uid) hsorted
              (k + (limit - 1)) hidx]
        congr 1
        omega
      have hf2 : ((sortedMatching store qy vis uid).drop (k + limit)).length + 1 ≤ f := by
        rw [List.length_drop] at hf ⊢
        omega
      have hrec := ih (k + limit)
        (some ((sortedMatching store qy vis uid)[k + (limit - 1)].createdAt)) hc2 hf2
      simp only [paginateWalk, hhm, if_true, hnc, hrec, hemojis]
      rw [← List.map_append]
      congr 1
      rw [← List.drop_drop, List.take_append_drop]

/-- C4 (amended): over a static store in which all matching documents have
pairwise-distinct positive `createdAt` keys, and with a positive page limit,
the cursor walk started at no cursor and continued while `has_more` holds
(given fuel `store.length + 1`, beyond what the walk can consume) yields
exactly the matching records, each exactly once (the output is the descending
sort of the matching documents, a permutation of them), in strictly descending
`createdAt` order. -/
theorem pagination_complete (store : List EmojiDoc) (qy vis uid : Option String)
    (limit : Nat) (hlim : 1 ≤ limit)
    (hdist : (store.filter (matchesFilters qy vis uid)).Pairwise
        (fun a b => a.createdAt ≠ b.createdAt))
    (hpos : ∀ d ∈ store.filter (matchesFilters qy vis uid), 0 < d.createdAt) :
    paginateWalk store qy vis uid limit (store.length + 1) none
      = (sortedMatching store qy vis uid).map EmojiBase.ofDoc
    ∧ (sortedMatching store qy vis uid).Perm (store.filter (matchesFilters qy vis uid))
    ∧ (sortedMatching store qy vis uid).Pairwise docGt := by
  have hperm : (sortedMatching store qy vis uid).Perm
      (store.filter (matchesFilters qy vis uid)) :=
    List.perm_insertionSort docGe _
  have hsorted : (sortedMatching store qy vis uid).Pairwise docGe :=
    List.sorted_insertionSort docGe _
  have hdist2 : (sortedMatching store qy vis uid).Pairwise
      (fun a b => a.createdAt ≠ b.createdAt) :=
    (hperm.pairwise_iff fun hxy => hxy.symm).mpr hdist
  have hgt : (sortedMatching store qy vis uid).Pairwise docGt :=
    (hsorted.and hdist2).imp fun hab => lt_of_le_of_ne hab.1 hab.2.symm
  have hpos2 : ∀ d ∈ sortedMatching store qy vis uid, 0 < d.createdAt :=
    fun d hd => hpos d (hperm.mem_iff.mp hd)
  refine ⟨?_, hperm, hgt⟩
  have hfuel : (sortedMatching store qy vis uid).length + 1 ≤ store.length + 1 := by
    have h1 : (sortedMatching store qy vis uid).length
        = (store.filter (matchesFilters qy vis uid)).length := hperm.length_eq
    have h2 := List.length_filter_le (matchesFilters qy vis uid) store
    omega
  have := paginateWalk_drop store qy vis uid limit hlim hgt hpos2
    (store.length + 1) 0 none (by simp [applyCursor]) (by simpa using hfuel)
  simpa using this

/-- Witness for C4 (amended) on a three-document store with distinct positive
keys and page limit 2. -/
theorem pagination_complete_witness :
    paginateWalk
        [{ emojiID := "a", imageURL := none, imageURLWithBackground := none,
           predictionID := "p", prompt := "x", userID := "u",
           visibility := "Public", createdAt := 3, downloadCount := none,
           category := none },
         { emojiID := "b", imageURL := none, imageURLWithBackground := none,
           predictionID := "p", prompt := "x", userID := "u",
           visibility := "Public", createdAt := 1, downloadCount := none,
           category := none },
         { emojiID := "c", imageURL := none, imageURLWithBackground := none,
           predictionID := "p", prompt := "x", userID := "u",
           visibility := "Public", createdAt := 2, downloadCount := none,
           category := none }] none none none 2 4 none
      = (sortedMatching
          [{ emojiID := "a", imageURL := none, imageURLWithBackground := none,
             predictionID := "p", prompt := "x", userID := "u",
             visibility := "Public", createdAt := 3, downloadCount := none,
             category := none },
           { emojiID := "b", imageURL := none, imageURLWithBackground := none,
             predictionID := "p", prompt := "x", userID := "u",
             visibility := "Public", createdAt := 1, downloadCount := none,
             category := none },
           { emojiID := "c", imageURL := none, imageURLWithBackground := none,
             predictionID := "p", prompt := "x", userID := "u",
             visibility := "Public", createdAt := 2, downloadCount := none,
             category := none }] none none none).map EmojiBase.ofDoc :=
  (pagination_complete _ none none none 2 (by norm_num) (by decide) (by decide)).1

/-- Counterexample to C4 as stated: two matching documents share
`createdAt = 5`; with limit 1 the walk ends with `has_more = false` after the
second request (extra fuel does not change the result) yet yields only one
record while two match — `start_after` on the duplicated key skips the second
document, so concatenating the pages does not contain every matching record. -/
theorem pagination_misses_duplicate_key :
    (paginateWalk
        [{ emojiID := "a", imageURL := none, imageURLWithBackground := none,
           predictionID := "p", prompt := "x", userID := "u",
           visibility := "Public", createdAt := 5, downloadCount := none,
           category := none },
         { emojiID := "b", imageURL := none, imageURLWithBackground := none,
           predictionID := "p", prompt := "x", userID := "u",
           visibility := "Public", createdAt := 5, downloadCount := none,
           category := none }] none none none 1 3 none).length = 1
    ∧ (paginateWalk
        [{ emojiID := "a", imageURL := none, imageURLWithBackground := none,
           predictionID := "p", prompt := "x", userID := "u",
           visibility := "Public", createdAt := 5, downloadCount := none,
           category := none },
         { emojiID := "b", imageURL := none, imageURLWithBackground := none,
           predictionID := "p", prompt := "x", userID := "u",
           visibility := "Public", createdAt := 5, downloadCount := none,
           category := none }] none none none 1 10 none).length = 1
    ∧ ([({ emojiID := "a", imageURL := none, imageURLWithBackground := none,
           predictionID := "p", prompt := "x", userID := "u",
           visibility := "Public", createdAt := 5, downloadCount := none,
           category := none } : EmojiDoc),
         { emojiID := "b", imageURL := none, imageURLWithBackground := none,
           predictionID := "p", prompt := "x", userID := "u",
           visibility := "Public", createdAt := 5, downloadCount := none,
           category := none }].filter (matchesFilters none none none)).length = 2 := by
  refine ⟨by decide, by decide, by decide⟩

end Gemmoji
